import Mathlib

/-!
Verification of the product-chatbot retrieval-augmented answering pipeline
(`app.py`): catalog flattening, casual-intent matching, context selection,
prompt composition and the `/ask` request handler, modelled as pure Lean
functions over an explicit data model of the catalog and of the two external
collaborators (similarity search and the LLM completion call).
-/

/-- One entry of a `typesOfCampaigns` map: the value dict with optional
`description` and `idealFor` keys. -/
structure CampaignInfo where
  description : Option String := none
  idealFor : Option String := none
deriving Repr, DecidableEq

/-- One item of the `faqs` list, with optional `question` and `answer` keys. -/
structure FAQItem where
  question : Option String := none
  answer : Option String := none
deriving Repr, DecidableEq

/-- The `contact` dict: optional scalar keys and an optional `offices` map
(country → address), modelled as an association list in insertion order. -/
structure ContactInfo where
  phone : Option String := none
  email : Option String := none
  title : Option String := none
  description : Option String := none
  offices : Option (List (String × String)) := none
deriving Repr, DecidableEq

/-- One entry of a `seoServices` map: the value dict with an optional
`description` key. -/
structure SeoServiceInfo where
  description : Option String := none
deriving Repr, DecidableEq

/-- One item of the `seoProcess` list, with optional `step` and `description`
keys. -/
structure StepItem where
  step : Option String := none
  description : Option String := none
deriving Repr, DecidableEq

/-- One catalog entry (one element of the `products` list parsed from
`product_catalog.json`).  Every field is optional; `none` models both an
absent key and a key whose value fails the `isinstance` type check in the
flattening loop.  Maps are modelled as association lists in insertion order,
matching Python dict iteration order. -/
structure Product where
  service : Option String := none
  description : Option String := none
  typesOfCampaigns : Option (List (String × CampaignInfo)) := none
  benefits : Option (List (String × String)) := none
  whyChooseUs : Option (List (String × String)) := none
  faqs : Option (List FAQItem) := none
  contact : Option ContactInfo := none
  seoServices : Option (List (String × SeoServiceInfo)) := none
  seoProcess : Option (List StepItem) := none
deriving Repr, DecidableEq

/-- Python `str.capitalize`: first character upper-cased, the rest
lower-cased (ASCII approximation). -/
def pyCapitalize (s : String) : String :=
  match s.data with
  | [] => ""
  | c :: cs => String.mk (c.toUpper :: cs.map Char.toLower)

/-- Python `str.strip()`: leading and trailing whitespace removed. -/
def pyStrip (s : String) : String :=
  String.mk
    (((s.data.dropWhile Char.isWhitespace).reverse.dropWhile
        Char.isWhitespace).reverse)

/-- Python `str.lower()` (ASCII approximation). -/
def pyLower (s : String) : String :=
  String.mk (s.data.map Char.toLower)

/-- Python `str.startswith(pre)`. -/
def pyStartsWith (s pre : String) : Bool :=
  pre.data.isPrefixOf s.data

/-- The always-emitted first chunk of an entry:
`f"{name}: {description}"` with `p.get("service", "Unnamed Product")` and
`p.get("description", "No description available.")`. -/
def headerChunk (p : Product) : String :=
  (p.service.getD "Unnamed Product") ++ ": " ++
    (p.description.getD "No description available.")

/-- Chunks from the `typesOfCampaigns` map:
`f"{campaign_type}: {description} - Ideal For: {idealFor}"`, with missing
sub-fields defaulting to the empty string. -/
def campaignChunks (p : Product) : List String :=
  match p.typesOfCampaigns with
  | some m => m.map (fun kv =>
      kv.1 ++ ": " ++ (kv.2.description.getD "") ++ " - Ideal For: " ++
        (kv.2.idealFor.getD ""))
  | none => []

/-- Chunks from the `benefits` map: `f"Benefit - {key}: {value}"`. -/
def benefitChunks (p : Product) : List String :=
  match p.benefits with
  | some m => m.map (fun kv => "Benefit - " ++ kv.1 ++ ": " ++ kv.2)
  | none => []

/-- Chunks from the `whyChooseUs` map: `f"Why Choose Us - {key}: {value}"`. -/
def whyChooseUsChunks (p : Product) : List String :=
  match p.whyChooseUs with
  | some m => m.map (fun kv => "Why Choose Us - " ++ kv.1 ++ ": " ++ kv.2)
  | none => []

/-- The chunk emitted for one FAQ item, if any: both `question` and `answer`
must be present and non-empty (Python string truthiness), otherwise the item
is skipped (`none`). -/
def faqChunk? (faq : FAQItem) : Option String :=
  let question := faq.question.getD ""
  let answer := faq.answer.getD ""
  if question ≠ "" ∧ answer ≠ "" then
    some ("FAQ - Q: " ++ question ++ " A: " ++ answer)
  else none

/-- Chunks from the `faqs` list: one per item that passes `faqChunk?`. -/
def faqChunks (faqs : List FAQItem) : List String :=
  faqs.filterMap faqChunk?

/-- Chunks from the `faqs` field of an entry. -/
def faqChunksOf (p : Product) : List String :=
  match p.faqs with
  | some l => faqChunks l
  | none => []

/-- Zero or one chunk for an optional scalar contact sub-field, with its
fixed label. -/
def optChunk (label : String) (v : Option String) : List String :=
  match v with
  | some s => [label ++ s]
  | none => []

/-- Chunks from the `contact` dict: one per recognized present sub-field,
plus one per office-country entry (`f"Office in {country.capitalize()}: {addr}"`). -/
def contactChunks (c : ContactInfo) : List String :=
  optChunk "Contact Phone: " c.phone ++
  optChunk "Contact Email: " c.email ++
  optChunk "Contact Title: " c.title ++
  optChunk "About Us: " c.description ++
  (match c.offices with
   | some offs => offs.map (fun kv =>
       "Office in " ++ pyCapitalize kv.1 ++ ": " ++ kv.2)
   | none => [])

/-- Chunks from the `contact` field of an entry. -/
def contactChunksOf (p : Product) : List String :=
  match p.contact with
  | some c => contactChunks c
  | none => []

/-- Chunks from the `seoServices` map:
`f"SEO Service - {service}: {description}"`. -/
def seoServiceChunks (p : Product) : List String :=
  match p.seoServices with
  | some m => m.map (fun kv =>
      "SEO Service - " ++ kv.1 ++ ": " ++ (kv.2.description.getD ""))
  | none => []

/-- Chunks from the `seoProcess` list:
`f"Process Step - {step}: {description}"`, missing sub-fields defaulting to
the empty string. -/
def processChunks (p : Product) : List String :=
  match p.seoProcess with
  | some l => l.map (fun st =>
      "Process Step - " ++ (st.step.getD "") ++ ": " ++ (st.description.getD ""))
  | none => []

/-- The Catalog Flattener, per entry: the loop body of the docs-building
loop in `app.py` (lines 48–101), emitting the header chunk first and then
each nested-field section in source order. -/
def flattenProduct (p : Product) : List String :=
  headerChunk p ::
    (campaignChunks p ++ benefitChunks p ++ whyChooseUsChunks p ++
     faqChunksOf p ++ contactChunksOf p ++ seoServiceChunks p ++
     processChunks p)

/-- The Catalog Flattener over the whole `products` list: the flat `docs`
list in catalog-entry order. -/
def flattenCatalog (ps : List Product) : List String :=
  (ps.map flattenProduct).flatten

/-- The `CASUAL_RESPONSES` dictionary of `app.py`, as an association list in
insertion order (Python dicts iterate in insertion order). -/
def CASUAL_RESPONSES : List (String × String) :=
  [("hi", "Hello! 👋 Welcome to Emerging Software. How can I assist you today?"),
   ("hello", "Hi there! 😊 How can I help you with our services?"),
   ("hey", "Hey! 👋 What would you like to know?"),
   ("how are you", "I\x27m doing great! 😊 Ready to help you succeed. What can I assist with?"),
   ("i\x27m fine", "Great to hear! 😊 Now, how can I help your business?"),
   ("thanks", "You\x27re welcome! 🙌 Feel free to ask anything else."),
   ("thank you", "Happy to help! 😊"),
   ("bye", "Goodbye! 👋 Have a great day!"),
   ("ok", "Okay! Let me know if you need more info."),
   ("yes", "Great! What else would you like to know?"),
   ("no", "No problem! Feel free to ask anything else.")]

/-- The Casual-Intent Matcher: the first entry of `CASUAL_RESPONSES` whose
key equals the lower-cased query or is a prefix of it
(`lower_query == key or lower_query.startswith(key)`). -/
def casualMatch (q : String) : Option String :=
  CASUAL_RESPONSES.findSome? (fun kv =>
    if q == kv.1 || pyStartsWith q kv.1 then some kv.2 else none)

/-- Outcome of `vectorstore.similarity_search(user_query, k=5)`: either the
returned chunk contents in ranked order, or a raised exception. -/
inductive SearchOutcome where
  | ok (chunks : List String)
  | err
deriving Repr, DecidableEq

/-- Outcome of the Groq chat-completion call: either the response text or a
raised exception. -/
inductive LLMResult where
  | ok (text : String)
  | err
deriving Repr, DecidableEq

/-- The Context Selector body (lines 194–202): join the retrieved chunks
with newlines; blank result degrades to a fixed sentence; a search error
degrades to another fixed sentence. -/
def buildContext (sr : SearchOutcome) : String :=
  match sr with
  | SearchOutcome.ok chunks =>
    let context := String.intercalate "\n" chunks
    if pyStrip context = "" then "No specific information found." else context
  | SearchOutcome.err => "Unable to retrieve context."

/-- Static prefix of the prompt f-string: role line and company profile,
up to the `PRODUCT CONTEXT:` label. -/
def promptProfile : String :=
  "You are a helpful AI assistant for Emerging Software, a leading digital marketing agency in the Middle East.\n\nCOMPANY PROFILE:\n- Provides services: Email Marketing, Digital Marketing, SEO, Content Writing, PPC, Social Media, Affiliate Marketing, Website Development & Design\n- Focus: Middle Eastern market\n- Locations: Pakistan, USA, Qatar\n- Contact: director@emergingssoftware.com | +1 830 631 0316\n\n"

/-- Static suffix of the prompt f-string: the fixed instruction block and
the `ANSWER:` cue. -/
def promptInstructions : String :=
  "\n\nINSTRUCTIONS:\n1. Answer ONLY using the provided product data and company information\n2. Be friendly, professional, and focused on solutions\n3. Keep responses to 3-5 sentences unless more detail is needed\n4. Include relevant contact info when appropriate\n5. Use emojis sparingly for emphasis\n6. If the question is outside our scope, politely redirect to our services\n7. Never make up services or information not in the context\n8. Encourage specific service inquiries or contact us for consultations\n\nANSWER:"

/-- The Prompt Composer (lines 207–230): the f-string combining the company
profile, the retrieved context, the user question and the instruction
block. -/
def buildPrompt (context userQuery : String) : String :=
  promptProfile ++ "PRODUCT CONTEXT:\n" ++ context ++ "\n\n" ++
    "USER QUESTION: " ++ userQuery ++ promptInstructions

/-- The fixed apology answer produced by the blanket `except` handler of the
`/ask` endpoint (lines 248–252). -/
def APOLOGY : String :=
  "Sorry, I encountered an error processing your request. Please try again or contact us directly at director@emergingssoftware.com"

/-- The guiding message of the empty-query 400 response (line 180). -/
def EMPTY_QUERY_MSG : String := "Please type a question to get started!"

/-- Observable outcome of one `/ask` request: HTTP status, the `answer`
field, and a trace of which pipeline stages ran (whether the casual matcher
was reached, the `k` passed to similarity search if it was called, the
context string fed to the Prompt Composer, the prompt sent to the LLM, and
whether the LLM call was made). -/
structure AskResult where
  status : Nat
  answer : String
  casualChecked : Bool
  searchK : Option Nat
  contextUsed : Option String
  promptSent : Option String
  llmCalled : Bool
deriving Repr, DecidableEq

/-- The `/ask` POST handler (lines 176–252), with the two external calls
abstracted as the oracle functions `search` (query and k to a search
outcome) and `llm` (prompt to a completion outcome).  The raw query is
`request.json.get("query", "")` (`none` models a missing field). -/
def ask (rawQuery : Option String) (search : String → Nat → SearchOutcome)
    (llm : String → LLMResult) : AskResult :=
  let user_query := pyStrip (rawQuery.getD "")
  if user_query = "" then
    { status := 400, answer := EMPTY_QUERY_MSG, casualChecked := false,
      searchK := none, contextUsed := none, promptSent := none,
      llmCalled := false }
  else
    let lower_query := pyStrip (pyLower user_query)
    match casualMatch lower_query with
    | some resp =>
      { status := 200, answer := resp, casualChecked := true,
        searchK := none, contextUsed := none, promptSent := none,
        llmCalled := false }
    | none =>
      let context := buildContext (search user_query 5)
      let prompt := buildPrompt context user_query
      match llm prompt with
      | LLMResult.ok text =>
        { status := 200, answer := pyStrip text, casualChecked := true,
          searchK := some 5, contextUsed := some context,
          promptSent := some prompt, llmCalled := true }
      | LLMResult.err =>
        { status := 500, answer := APOLOGY, casualChecked := true,
          searchK := some 5, contextUsed := some context,
          promptSent := some prompt, llmCalled := true }

/-- The module-level state shared by all requests: the flat `docs` list the
vector store was built from (built once at startup, never reassigned). -/
structure ProcState where
  docs : List String
deriving Repr, DecidableEq

/-- A deterministic similarity search over the state's docs: score every
chunk with the (deterministic) similarity function, stable-sort by
descending score (ties keep insertion order), take the top `k`. -/
def similaritySearch (sim : String → String → Int) (docs : List String)
    (q : String) (k : Nat) : List String :=
  (((docs.map (fun d => (sim q d, d))).mergeSort
      (fun a b => decide (b.1 ≤ a.1))).map (fun x => x.2)).take k

/-- The similarity-search call as a state transition: it reads the docs and
returns the state unchanged (no component mutates the index after build). -/
def searchSt (sim : String → String → Int) (q : String) (k : Nat)
    (st : ProcState) : SearchOutcome × ProcState :=
  (SearchOutcome.ok (similaritySearch sim st.docs q k), st)

/-- The `/ask` handler threaded through the process state, with the
similarity search instantiated to the concrete deterministic search over
the state's docs (the LLM call stays an oracle). -/
def askSt (rawQuery : Option String) (sim : String → String → Int)
    (llm : String → LLMResult) (st : ProcState) : AskResult × ProcState :=
  let user_query := pyStrip (rawQuery.getD "")
  if user_query = "" then
    ({ status := 400, answer := EMPTY_QUERY_MSG, casualChecked := false,
       searchK := none, contextUsed := none, promptSent := none,
       llmCalled := false }, st)
  else
    let lower_query := pyStrip (pyLower user_query)
    match casualMatch lower_query with
    | some resp =>
      ({ status := 200, answer := resp, casualChecked := true,
         searchK := none, contextUsed := none, promptSent := none,
         llmCalled := false }, st)
    | none =>
      match searchSt sim user_query 5 st with
      | (sr, st1) =>
        let context := buildContext sr
        let prompt := buildPrompt context user_query
        match llm prompt with
        | LLMResult.ok text =>
          ({ status := 200, answer := pyStrip text, casualChecked := true,
             searchK := some 5, contextUsed := some context,
             promptSent := some prompt, llmCalled := true }, st1)
        | LLMResult.err =>
          ({ status := 500, answer := APOLOGY, casualChecked := true,
             searchK := some 5, contextUsed := some context,
             promptSent := some prompt, llmCalled := true }, st1)

/-- `pat` occurs in `s` as a contiguous substring. -/
def containsStr (s pat : String) : Prop :=
  ∃ a b, s = a ++ pat ++ b

/-! ### Helper lemmas -/

lemma append_ne_empty_of_left {a : String} (b : String) (ha : a ≠ "") :
    a ++ b ≠ "" := by
  intro h
  apply ha
  rw [String.ext_iff] at h ⊢
  rw [String.data_append] at h
  exact (List.append_eq_nil.mp h).1

lemma append_ne_empty_of_right (a : String) {b : String} (hb : b ≠ "") :
    a ++ b ≠ "" := by
  intro h
  apply hb
  rw [String.ext_iff] at h ⊢
  rw [String.data_append] at h
  exact (List.append_eq_nil.mp h).2

lemma mid_append_ne_empty (a : String) {b : String} (c : String) (hb : b ≠ "") :
    a ++ b ++ c ≠ "" :=
  append_ne_empty_of_left c (append_ne_empty_of_right a hb)

lemma containsStr_appL {s : String} (t : String) {pat : String}
    (h : containsStr s pat) : containsStr (s ++ t) pat := by
  rcases h with ⟨a, b, hab⟩
  exact ⟨a, b ++ t, by rw [hab]; simp [String.append_assoc]⟩

lemma containsStr_appR (s : String) {t pat : String}
    (h : containsStr t pat) : containsStr (s ++ t) pat := by
  rcases h with ⟨a, b, hab⟩
  exact ⟨s ++ a, b, by rw [hab]; simp [String.append_assoc]⟩

lemma findSome_isSome_of_mem {α β : Type} {f : α → Option β} {a : α}
    {l : List α} (ha : a ∈ l) (hf : (f a).isSome = true) :
    (l.findSome? f).isSome = true := by
  induction l with
  | nil => cases ha
  | cons x xs ih =>
    cases hfx : f x with
    | some b => simp [List.findSome?_cons, hfx]
    | none =>
      simp only [List.findSome?_cons, hfx]
      rcases List.mem_cons.mp ha with h | h
      · subst h
        rw [hfx] at hf
        cases hf
      · exact ih h

lemma campaignChunks_shape {p : Product} {chunk : String}
    (h : chunk ∈ campaignChunks p) :
    ∃ k d i, chunk = k ++ ": " ++ d ++ " - Ideal For: " ++ i := by
  unfold campaignChunks at h
  cases hm : p.typesOfCampaigns with
  | none => rw [hm] at h; cases h
  | some m =>
    rw [hm] at h
    rcases List.mem_map.mp h with ⟨kv, _, hkv⟩
    exact ⟨kv.1, kv.2.description.getD "", kv.2.idealFor.getD "", hkv.symm⟩

lemma benefitChunks_shape {p : Product} {chunk : String}
    (h : chunk ∈ benefitChunks p) :
    ∃ k v, chunk = "Benefit - " ++ k ++ ": " ++ v := by
  unfold benefitChunks at h
  cases hm : p.benefits with
  | none => rw [hm] at h; cases h
  | some m =>
    rw [hm] at h
    rcases List.mem_map.mp h with ⟨kv, _, hkv⟩
    exact ⟨kv.1, kv.2, hkv.symm⟩

lemma whyChooseUsChunks_shape {p : Product} {chunk : String}
    (h : chunk ∈ whyChooseUsChunks p) :
    ∃ k v, chunk = "Why Choose Us - " ++ k ++ ": " ++ v := by
  unfold whyChooseUsChunks at h
  cases hm : p.whyChooseUs with
  | none => rw [hm] at h; cases h
  | some m =>
    rw [hm] at h
    rcases List.mem_map.mp h with ⟨kv, _, hkv⟩
    exact ⟨kv.1, kv.2, hkv.symm⟩

lemma faqChunk?_shape {faq : FAQItem} {chunk : String}
    (h : faqChunk? faq = some chunk) :
    chunk = "FAQ - Q: " ++ faq.question.getD "" ++ " A: " ++ faq.answer.getD "" := by
  simp only [faqChunk?] at h
  split at h
  · exact (Option.some.inj h).symm
  · cases h

lemma faqChunksOf_shape {p : Product} {chunk : String}
    (h : chunk ∈ faqChunksOf p) :
    ∃ q a, chunk = "FAQ - Q: " ++ q ++ " A: " ++ a := by
  unfold faqChunksOf at h
  cases hm : p.faqs with
  | none => rw [hm] at h; cases h
  | some l =>
    rw [hm] at h
    rcases List.mem_filterMap.mp h with ⟨faq, _, hfaq⟩
    exact ⟨faq.question.getD "", faq.answer.getD "", faqChunk?_shape hfaq⟩

lemma optChunk_shape {label : String} {v : Option String} {chunk : String}
    (h : chunk ∈ optChunk label v) : ∃ s, chunk = label ++ s := by
  unfold optChunk at h
  cases v with
  | none => cases h
  | some s => exact ⟨s, List.mem_singleton.mp h⟩

lemma contactChunks_shape {c : ContactInfo} {chunk : String}
    (h : chunk ∈ contactChunks c) :
    (∃ lbl s, (lbl = "Contact Phone: " ∨ lbl = "Contact Email: " ∨
        lbl = "Contact Title: " ∨ lbl = "About Us: ") ∧ chunk = lbl ++ s) ∨
    (∃ k v, chunk = "Office in " ++ k ++ ": " ++ v) := by
  unfold contactChunks at h
  simp only [List.mem_append] at h
  rcases h with ((((h | h) | h) | h) | h)
  · rcases optChunk_shape h with ⟨s, hs⟩
    exact Or.inl ⟨_, s, Or.inl rfl, hs⟩
  · rcases optChunk_shape h with ⟨s, hs⟩
    exact Or.inl ⟨_, s, Or.inr (Or.inl rfl), hs⟩
  · rcases optChunk_shape h with ⟨s, hs⟩
    exact Or.inl ⟨_, s, Or.inr (Or.inr (Or.inl rfl)), hs⟩
  · rcases optChunk_shape h with ⟨s, hs⟩
    exact Or.inl ⟨_, s, Or.inr (Or.inr (Or.inr rfl)), hs⟩
  · cases hm : c.offices with
    | none => rw [hm] at h; cases h
    | some offs =>
      rw [hm] at h
      rcases List.mem_map.mp h with ⟨kv, _, hkv⟩
      exact Or.inr ⟨pyCapitalize kv.1, kv.2, hkv.symm⟩

lemma contactChunksOf_shape {p : Product} {chunk : String}
    (h : chunk ∈ contactChunksOf p) :
    (∃ lbl s, (lbl = "Contact Phone: " ∨ lbl = "Contact Email: " ∨
        lbl = "Contact Title: " ∨ lbl = "About Us: ") ∧ chunk = lbl ++ s) ∨
    (∃ k v, chunk = "Office in " ++ k ++ ": " ++ v) := by
  unfold contactChunksOf at h
  cases hm : p.contact with
  | none => rw [hm] at h; cases h
  | some c => rw [hm] at h; exact contactChunks_shape h

lemma seoServiceChunks_shape {p : Product} {chunk : String}
    (h : chunk ∈ seoServiceChunks p) :
    ∃ k d, chunk = "SEO Service - " ++ k ++ ": " ++ d := by
  unfold seoServiceChunks at h
  cases hm : p.seoServices with
  | none => rw [hm] at h; cases h
  | some m =>
    rw [hm] at h
    rcases List.mem_map.mp h with ⟨kv, _, hkv⟩
    exact ⟨kv.1, kv.2.description.getD "", hkv.symm⟩

lemma processChunks_shape {p : Product} {chunk : String}
    (h : chunk ∈ processChunks p) :
    ∃ s d, chunk = "Process Step - " ++ s ++ ": " ++ d := by
  unfold processChunks at h
  cases hm : p.seoProcess with
  | none => rw [hm] at h; cases h
  | some l =>
    rw [hm] at h
    rcases List.mem_map.mp h with ⟨st, _, hst⟩
    exact ⟨st.step.getD "", st.description.getD "", hst.symm⟩

lemma flattenProduct_chunk_ne_empty {p : Product} {chunk : String}
    (h : chunk ∈ flattenProduct p) : chunk ≠ "" := by
  rcases List.mem_cons.mp h with hh | hrest
  · subst hh
    unfold headerChunk
    exact mid_append_ne_empty _ _ (by decide)
  · simp only [List.mem_append] at hrest
    rcases hrest with (((((h | h) | h) | h) | h) | h) | h
    · rcases campaignChunks_shape h with ⟨k, d, i, rfl⟩
      exact mid_append_ne_empty _ _ (by decide)
    · rcases benefitChunks_shape h with ⟨k, v, rfl⟩
      exact mid_append_ne_empty _ _ (by decide)
    · rcases whyChooseUsChunks_shape h with ⟨k, v, rfl⟩
      exact mid_append_ne_empty _ _ (by decide)
    · rcases faqChunksOf_shape h with ⟨q, a, rfl⟩
      exact mid_append_ne_empty _ _ (by decide)
    · rcases contactChunksOf_shape h with ⟨lbl, s, hl, rfl⟩ | ⟨k, v, rfl⟩
      · rcases hl with rfl | rfl | rfl | rfl <;>
          exact append_ne_empty_of_left _ (by decide)
      · exact mid_append_ne_empty _ _ (by decide)
    · rcases seoServiceChunks_shape h with ⟨k, d, rfl⟩
      exact mid_append_ne_empty _ _ (by decide)
    · rcases processChunks_shape h with ⟨s, d, rfl⟩
      exact mid_append_ne_empty _ _ (by decide)

lemma faqChunk?_some_of_nonempty {faq : FAQItem}
    (hq : faq.question.getD "" ≠ "") (ha : faq.answer.getD "" ≠ "") :
    faqChunk? faq =
      some ("FAQ - Q: " ++ faq.question.getD "" ++ " A: " ++ faq.answer.getD "") := by
  simp only [faqChunk?]
  rw [if_pos ⟨hq, ha⟩]

/-- The drop condition of the FAQ loop: `question` or `answer` absent or
empty. -/
def faqMissing (f : FAQItem) : Prop :=
  f.question.getD "" = "" ∨ f.answer.getD "" = ""

instance (f : FAQItem) : Decidable (faqMissing f) := by
  unfold faqMissing
  infer_instance

lemma faqChunk?_none_of_missing {faq : FAQItem} (hm : faqMissing faq) :
    faqChunk? faq = none := by
  have h : faq.question.getD "" = "" ∨ faq.answer.getD "" = "" := hm
  simp only [faqChunk?]
  rw [if_neg]
  rintro ⟨hq, ha⟩
  rcases h with h | h
  · exact hq h
  · exact ha h

lemma faqChunks_length_add_dropped (faqs : List FAQItem) :
    (faqChunks faqs).length +
      (faqs.filter (fun g => decide (faqMissing g))).length =
      faqs.length := by
  induction faqs with
  | nil => rfl
  | cons f fs ih =>
    simp only [faqChunks] at ih ⊢
    by_cases hf : faqMissing f
    · have h1 : faqChunk? f = none := faqChunk?_none_of_missing hf
      simp [List.filterMap_cons, h1, List.filter_cons, decide_eq_true hf]
      omega
    · have hf2 : ¬(f.question.getD "" = "" ∨ f.answer.getD "" = "") := hf
      have h1 := faqChunk?_some_of_nonempty
        (fun h => hf2 (Or.inl h)) (fun h => hf2 (Or.inr h))
      simp [List.filterMap_cons, h1, List.filter_cons, decide_eq_false hf]
      omega

lemma flattenCatalog_length_ge (ps : List Product) :
    ps.length ≤ (flattenCatalog ps).length := by
  induction ps with
  | nil => simp [flattenCatalog]
  | cons p ps ih =>
    simp only [flattenCatalog, List.map_cons, List.flatten_cons,
      List.length_append, List.length_cons] at *
    have hp : 1 ≤ (flattenProduct p).length := by
      simp [flattenProduct]
    omega

lemma askSt_state_fix (rawQuery : Option String) (sim : String → String → Int)
    (llm : String → LLMResult) (st : ProcState) :
    (askSt rawQuery sim llm st).2 = st := by
  simp only [askSt, searchSt]
  split
  · rfl
  · split
    · rfl
    · split <;> rfl

lemma ask_noncasual_fields (q : String) (search : String → Nat → SearchOutcome)
    (llm : String → LLMResult) (hq : pyStrip q ≠ "")
    (hc : casualMatch (pyStrip (pyLower (pyStrip q))) = none) :
    (ask (some q) search llm).casualChecked = true ∧
    (ask (some q) search llm).searchK = some 5 ∧
    (ask (some q) search llm).contextUsed =
      some (buildContext (search (pyStrip q) 5)) ∧
    (ask (some q) search llm).promptSent =
      some (buildPrompt (buildContext (search (pyStrip q) 5)) (pyStrip q)) ∧
    (ask (some q) search llm).llmCalled = true ∧
    (llm (buildPrompt (buildContext (search (pyStrip q) 5)) (pyStrip q)) =
        LLMResult.err →
      (ask (some q) search llm).status = 500 ∧
      (ask (some q) search llm).answer = APOLOGY) ∧
    (∀ text,
      llm (buildPrompt (buildContext (search (pyStrip q) 5)) (pyStrip q)) =
        LLMResult.ok text →
      (ask (some q) search llm).status = 200 ∧
      (ask (some q) search llm).answer = pyStrip text) := by
  simp only [ask, Option.getD_some, hc, if_neg hq]
  cases hl : llm (buildPrompt (buildContext (search (pyStrip q) 5)) (pyStrip q)) with
  | ok text =>
    refine ⟨rfl, rfl, rfl, rfl, rfl, ?_, ?_⟩
    · intro h
      simp at h
    · intro t ht
      injection ht with h3
      subst h3
      exact ⟨rfl, rfl⟩
  | err =>
    refine ⟨rfl, rfl, rfl, rfl, rfl, fun _ => ⟨rfl, rfl⟩, ?_⟩
    intro t ht
    simp at ht

lemma containsStr_intro (s a pat b : String) (h : s = a ++ pat ++ b) :
    containsStr s pat :=
  ⟨a, b, h⟩

/-! ### Claim theorems -/

/-- Claim C1 (corrected): on a valid non-empty, non-casual query, a failing
LLM completion call is caught and converted into the fixed apology answer,
which names a human contact channel; it is never surfaced as an unhandled
fault.  However the HTTP status of that response is 500, not 200 as the
claim states. -/
theorem C1_llm_failure_apology (q : String)
    (search : String → Nat → SearchOutcome) (hq : pyStrip q ≠ "")
    (hc : casualMatch (pyStrip (pyLower (pyStrip q))) = none) :
    (ask (some q) search (fun _ => LLMResult.err)).status = 500 ∧
    (ask (some q) search (fun _ => LLMResult.err)).answer = APOLOGY ∧
    containsStr APOLOGY "director@emergingssoftware.com" := by
  have h :=
    (ask_noncasual_fields q search (fun _ => LLMResult.err) hq hc).2.2.2.2.2.1 rfl
  refine ⟨h.1, h.2, ?_⟩
  exact containsStr_intro _
    "Sorry, I encountered an error processing your request. Please try again or contact us directly at "
    _ "" rfl

/-- Claim C1 counterexample: at the concrete valid non-casual query
`"what services do you offer"` with a failing LLM call, the response status
is 500, not 200 as the claim asserts. -/
theorem C1_counterexample :
    (ask (some "what services do you offer")
        (fun _ _ => SearchOutcome.ok ["chunk"]) (fun _ => LLMResult.err)).status
      = 500 ∧
    ¬((ask (some "what services do you offer")
        (fun _ _ => SearchOutcome.ok ["chunk"]) (fun _ => LLMResult.err)).status
      = 200) :=
  ⟨rfl, by decide⟩

/-- Claim C1 witness: the amended theorem applied at a concrete query. -/
theorem C1_witness :
    (ask (some "what services do you offer")
        (fun _ _ => SearchOutcome.ok ["chunk"]) (fun _ => LLMResult.err)).answer
      = APOLOGY :=
  (C1_llm_failure_apology "what services do you offer"
    (fun _ _ => SearchOutcome.ok ["chunk"]) (by decide) (by decide)).2.1

/-- Claim C2 (corrected): the Casual-Intent Matcher short-circuits on exact
equality for every key, and ALSO on prefix match for every key with no
word-count bound; `"hi"` and `"hello there"` short-circuit to their canned
responses without retrieval, but so does the long substantive query starting
with `"hi"` (refuting the bounded-prefix policy of the claim). -/
theorem C2_casual_prefix_policy (q k r : String)
    (search : String → Nat → SearchOutcome) (llm : String → LLMResult)
    (hk : (k, r) ∈ CASUAL_RESPONSES)
    (h : q = k ∨ pyStartsWith q k = true) :
    (casualMatch q).isSome = true ∧
    (ask (some "hi") search llm).answer =
      "Hello! 👋 Welcome to Emerging Software. How can I assist you today?" ∧
    (ask (some "hi") search llm).searchK = none ∧
    (ask (some "hello there") search llm).answer =
      "Hi there! 😊 How can I help you with our services?" ∧
    (ask (some "hello there") search llm).searchK = none := by
  refine ⟨?_, rfl, rfl, rfl, rfl⟩
  unfold casualMatch
  apply findSome_isSome_of_mem hk
  rcases h with rfl | h
  · simp
  · simp [h]

/-- Claim C2 counterexample: the long substantive query starting with
`"hi"` DOES short-circuit to the canned greeting without retrieval or an
LLM call, contrary to the claim. -/
theorem C2_counterexample :
    (ask (some "hi, what are your seo packages and pricing details")
        (fun _ _ => SearchOutcome.err) (fun _ => LLMResult.ok "llm answer")).answer =
      "Hello! 👋 Welcome to Emerging Software. How can I assist you today?" ∧
    (ask (some "hi, what are your seo packages and pricing details")
        (fun _ _ => SearchOutcome.err) (fun _ => LLMResult.ok "llm answer")).searchK
      = none ∧
    (ask (some "hi, what are your seo packages and pricing details")
        (fun _ _ => SearchOutcome.err) (fun _ => LLMResult.ok "llm answer")).llmCalled
      = false :=
  ⟨rfl, rfl, rfl⟩

/-- Claim C2 witness: the amended theorem applied at the concrete key
`"hello"` and query `"hello there"`. -/
theorem C2_witness : (casualMatch "hello there").isSome = true :=
  (C2_casual_prefix_policy "hello there" "hello"
    "Hi there! 😊 How can I help you with our services?"
    (fun _ _ => SearchOutcome.err) (fun _ => LLMResult.ok "x")
    (by decide) (Or.inr (by decide))).1

/-- Claim C3 (amended): every chunk emitted by the Flattener is a non-empty
string after formatting.  (The dropping of under-specified sources holds only
for FAQ items; campaign types and process steps with missing sub-fields are
still emitted, as the counterexample shows.) -/
theorem C3_chunks_nonempty (ps : List Product) (chunk : String)
    (h : chunk ∈ flattenCatalog ps) : chunk ≠ "" := by
  unfold flattenCatalog at h
  rcases List.mem_flatten.mp h with ⟨l, hl, hcl⟩
  rcases List.mem_map.mp hl with ⟨p, _, rfl⟩
  exact flattenProduct_chunk_ne_empty hcl

/-- Claim C3 counterexample: a campaign type with a missing description is
NOT dropped; it is emitted as partial text with empty content parts. -/
theorem C3_counterexample :
    "Brand Awareness:  - Ideal For: " ∈
      flattenCatalog
        [({ typesOfCampaigns := some [("Brand Awareness", ({} : CampaignInfo))] } : Product)] := by
  decide

/-- Claim C3 witness: the amended theorem applied to a concrete catalog. -/
theorem C3_witness : "Unnamed Product: No description available." ≠ "" :=
  C3_chunks_nonempty [({} : Product)]
    "Unnamed Product: No description available." (by decide)

/-- Claim C5: an empty-after-trimming (or missing) query is rejected with
status 400 and the fixed guiding message, and neither casual matching nor
retrieval nor the LLM call happens. -/
theorem C5_empty_query_validation (rawQuery : Option String)
    (search : String → Nat → SearchOutcome) (llm : String → LLMResult)
    (h : pyStrip (rawQuery.getD "") = "") :
    (ask rawQuery search llm).status = 400 ∧
    (ask rawQuery search llm).answer = EMPTY_QUERY_MSG ∧
    (ask rawQuery search llm).casualChecked = false ∧
    (ask rawQuery search llm).searchK = none ∧
    (ask rawQuery search llm).llmCalled = false := by
  simp [ask, h]

/-- Claim C5 witness: the theorem applied at a whitespace-only query. -/
theorem C5_witness :
    (ask (some "   ") (fun _ _ => SearchOutcome.ok ["c"])
        (fun _ => LLMResult.ok "a")).status = 400 :=
  (C5_empty_query_validation (some "   ") (fun _ _ => SearchOutcome.ok ["c"])
    (fun _ => LLMResult.ok "a") (by decide)).1

/-- Claim C4: on the non-casual path the Context Selector is invoked with
fixed K = 5; the context fed onward is the newline-join of the retrieved
chunks; an empty join degrades to the fixed sentence
`"No specific information found."` and a search error degrades to
`"Unable to retrieve context."`; in every case answer generation still
proceeds (the LLM call is made). -/
theorem C4_context_selector (q : String)
    (search : String → Nat → SearchOutcome) (llm : String → LLMResult)
    (hq : pyStrip q ≠ "")
    (hc : casualMatch (pyStrip (pyLower (pyStrip q))) = none) :
    (ask (some q) search llm).searchK = some 5 ∧
    (ask (some q) search llm).contextUsed =
      some (buildContext (search (pyStrip q) 5)) ∧
    (ask (some q) search llm).llmCalled = true ∧
    buildContext SearchOutcome.err = "Unable to retrieve context." ∧
    buildContext (SearchOutcome.ok []) = "No specific information found." ∧
    (∀ chunks, pyStrip (String.intercalate "\n" chunks) ≠ "" →
      buildContext (SearchOutcome.ok chunks) = String.intercalate "\n" chunks) := by
  have h := ask_noncasual_fields q search llm hq hc
  refine ⟨h.2.1, h.2.2.1, h.2.2.2.2.1, rfl, rfl, ?_⟩
  intro chunks hch
  simp only [buildContext]
  rw [if_neg hch]

/-- Claim C4 witness: the theorem applied at a concrete query with a failing
similarity search: the context degrades to the fixed fallback sentence and
the request is not aborted. -/
theorem C4_witness :
    (ask (some "what is seo") (fun _ _ => SearchOutcome.err)
        (fun _ => LLMResult.ok "a")).contextUsed =
      some "Unable to retrieve context." ∧
    (ask (some "what is seo") (fun _ _ => SearchOutcome.err)
        (fun _ => LLMResult.ok "a")).llmCalled = true := by
  have h := C4_context_selector "what is seo" (fun _ _ => SearchOutcome.err)
    (fun _ => LLMResult.ok "a") (by decide) (by decide)
  exact ⟨h.2.1, h.2.2.1⟩

/-- Claim C6: the FAQ loop emits exactly one chunk per item whose question
and answer are both present and non-empty, silently emits none for every
other item, and the aggregate chunk count drops by exactly one per dropped
item relative to a fully-populated list of the same length. -/
theorem C6_faq_chunk_counting (faqs : List FAQItem) (f : FAQItem) :
    ((¬ faqMissing f) →
      faqChunk? f =
        some ("FAQ - Q: " ++ f.question.getD "" ++ " A: " ++ f.answer.getD "")) ∧
    (faqMissing f → faqChunk? f = none) ∧
    (faqChunks faqs).length +
      (faqs.filter (fun g => decide (faqMissing g))).length = faqs.length := by
  refine ⟨?_, faqChunk?_none_of_missing, faqChunks_length_add_dropped faqs⟩
  intro hf
  have hf2 : ¬(f.question.getD "" = "" ∨ f.answer.getD "" = "") := hf
  exact faqChunk?_some_of_nonempty
    (fun h => hf2 (Or.inl h)) (fun h => hf2 (Or.inr h))

/-- Claim C6 witness: the theorem applied to a concrete FAQ list with one
fully-populated item and two deficient items. -/
theorem C6_witness :
    faqChunk? { question := some "q2", answer := none } = none ∧
    (faqChunks [{ question := some "q", answer := some "a" },
        { question := some "q2", answer := none },
        { question := none, answer := some "a3" }]).length + 2 = 3 := by
  constructor
  · exact (C6_faq_chunk_counting []
      { question := some "q2", answer := none }).2.1 (by decide)
  · exact (C6_faq_chunk_counting
      [{ question := some "q", answer := some "a" },
       { question := some "q2", answer := none },
       { question := none, answer := some "a3" }]
      { question := some "q", answer := some "a" }).2.2

/-- Claim C7: every catalog entry always yields the
`"<service name>: <description>"` chunk, with fixed placeholders substituted
when either field is absent, and that chunk is never empty. -/
theorem C7_header_chunk (p : Product) :
    headerChunk p ∈ flattenProduct p ∧
    (p.service = none →
      headerChunk p = "Unnamed Product" ++ ": " ++
        (p.description.getD "No description available.")) ∧
    (p.description = none →
      headerChunk p = (p.service.getD "Unnamed Product") ++ ": " ++
        "No description available.") ∧
    (p.service = none → p.description = none →
      headerChunk p = "Unnamed Product: No description available.") ∧
    headerChunk p ≠ "" := by
  refine ⟨?_, ?_, ?_, ?_, ?_⟩
  · unfold flattenProduct
    exact List.mem_cons_self _ _
  · intro hs
    simp only [headerChunk, hs, Option.getD_none]
  · intro hd
    simp only [headerChunk, hd, Option.getD_none]
  · intro hs hd
    simp only [headerChunk, hs, hd, Option.getD_none]
    rfl
  · unfold headerChunk
    exact mid_append_ne_empty _ _ (by decide)

/-- Claim C7 witness: the theorem applied to the entry with no fields. -/
theorem C7_witness :
    headerChunk ({} : Product) = "Unnamed Product: No description available." :=
  (C7_header_chunk ({} : Product)).2.2.2.1 rfl rfl

set_option maxRecDepth 8192 in
/-- Claim C8: the Prompt Composer produces one fixed-structure prompt
containing the company profile facts, a labeled context section with the
retrieved context verbatim, a labeled question section with the query
verbatim, and the fixed instruction block (answer only from context, bounded
sentence count, redirect out-of-scope questions, never invent services). -/
theorem C8_prompt_composition (context q : String) :
    containsStr (buildPrompt context q) "- Locations: Pakistan, USA, Qatar" ∧
    containsStr (buildPrompt context q) ("PRODUCT CONTEXT:\n" ++ context) ∧
    containsStr (buildPrompt context q) ("USER QUESTION: " ++ q) ∧
    containsStr (buildPrompt context q)
      "1. Answer ONLY using the provided product data and company information" ∧
    containsStr (buildPrompt context q)
      "3. Keep responses to 3-5 sentences unless more detail is needed" ∧
    containsStr (buildPrompt context q)
      "6. If the question is outside our scope, politely redirect to our services" ∧
    containsStr (buildPrompt context q)
      "7. Never make up services or information not in the context" := by
  refine ⟨?_, ?_, ?_, ?_, ?_, ?_, ?_⟩
  · unfold buildPrompt
    exact containsStr_appL _ (containsStr_appL _ (containsStr_appL _
      (containsStr_appL _ (containsStr_appL _ (containsStr_appL _
        (containsStr_intro promptProfile
          "You are a helpful AI assistant for Emerging Software, a leading digital marketing agency in the Middle East.\n\nCOMPANY PROFILE:\n- Provides services: Email Marketing, Digital Marketing, SEO, Content Writing, PPC, Social Media, Affiliate Marketing, Website Development & Design\n- Focus: Middle Eastern market\n"
          "- Locations: Pakistan, USA, Qatar"
          "\n- Contact: director@emergingssoftware.com | +1 830 631 0316\n\n"
          rfl))))))
  · apply containsStr_intro _ promptProfile _
      ("\n\n" ++ "USER QUESTION: " ++ q ++ promptInstructions)
    rw [String.ext_iff]
    simp [buildPrompt, List.append_assoc]
  · apply containsStr_intro _
      (promptProfile ++ "PRODUCT CONTEXT:\n" ++ context ++ "\n\n") _
      promptInstructions
    rw [String.ext_iff]
    simp [buildPrompt, List.append_assoc]
  · unfold buildPrompt
    exact containsStr_appR _ (containsStr_intro promptInstructions
      "\n\nINSTRUCTIONS:\n"
      "1. Answer ONLY using the provided product data and company information"
      "\n2. Be friendly, professional, and focused on solutions\n3. Keep responses to 3-5 sentences unless more detail is needed\n4. Include relevant contact info when appropriate\n5. Use emojis sparingly for emphasis\n6. If the question is outside our scope, politely redirect to our services\n7. Never make up services or information not in the context\n8. Encourage specific service inquiries or contact us for consultations\n\nANSWER:"
      rfl)
  · unfold buildPrompt
    exact containsStr_appR _ (containsStr_intro promptInstructions
      "\n\nINSTRUCTIONS:\n1. Answer ONLY using the provided product data and company information\n2. Be friendly, professional, and focused on solutions\n"
      "3. Keep responses to 3-5 sentences unless more detail is needed"
      "\n4. Include relevant contact info when appropriate\n5. Use emojis sparingly for emphasis\n6. If the question is outside our scope, politely redirect to our services\n7. Never make up services or information not in the context\n8. Encourage specific service inquiries or contact us for consultations\n\nANSWER:"
      rfl)
  · unfold buildPrompt
    exact containsStr_appR _ (containsStr_intro promptInstructions
      "\n\nINSTRUCTIONS:\n1. Answer ONLY using the provided product data and company information\n2. Be friendly, professional, and focused on solutions\n3. Keep responses to 3-5 sentences unless more detail is needed\n4. Include relevant contact info when appropriate\n5. Use emojis sparingly for emphasis\n"
      "6. If the question is outside our scope, politely redirect to our services"
      "\n7. Never make up services or information not in the context\n8. Encourage specific service inquiries or contact us for consultations\n\nANSWER:"
      rfl)
  · unfold buildPrompt
    exact containsStr_appR _ (containsStr_intro promptInstructions
      "\n\nINSTRUCTIONS:\n1. Answer ONLY using the provided product data and company information\n2. Be friendly, professional, and focused on solutions\n3. Keep responses to 3-5 sentences unless more detail is needed\n4. Include relevant contact info when appropriate\n5. Use emojis sparingly for emphasis\n6. If the question is outside our scope, politely redirect to our services\n"
      "7. Never make up services or information not in the context"
      "\n8. Encourage specific service inquiries or contact us for consultations\n\nANSWER:"
      rfl)

/-- Claim C9: for a fixed catalog and a deterministic similarity function,
the flattened docs are a pure function of the catalog; handling a request
leaves the process state unchanged (search is read-only over the index built
once at startup), hence a second run of the retrieval pipeline with the same
query on the post-request state returns exactly the same result, in
particular the same RetrievedContext. -/
theorem C9_retrieval_idempotent (products : List Product)
    (sim : String → String → Int) (llm : String → LLMResult)
    (rawQuery : Option String) :
    (askSt rawQuery sim llm ⟨flattenCatalog products⟩).2 =
      ⟨flattenCatalog products⟩ ∧
    askSt rawQuery sim llm ((askSt rawQuery sim llm ⟨flattenCatalog products⟩).2) =
      askSt rawQuery sim llm ⟨flattenCatalog products⟩ ∧
    (askSt rawQuery sim llm
        ((askSt rawQuery sim llm ⟨flattenCatalog products⟩).2)).1.contextUsed =
      (askSt rawQuery sim llm ⟨flattenCatalog products⟩).1.contextUsed := by
  have h := askSt_state_fix rawQuery sim llm ⟨flattenCatalog products⟩
  refine ⟨h, ?_, ?_⟩ <;> rw [h]

/-- Claim C10: the Flattener emits the header chunk of every entry first,
at least one chunk per entry, hence at least as many chunks as catalog
entries, and a non-empty aggregate for a non-empty catalog. -/
theorem C10_flatten_lower_bound (ps : List Product) (hps : ps ≠ []) :
    (∀ p ∈ ps, (flattenProduct p).head? = some (headerChunk p) ∧
      1 ≤ (flattenProduct p).length) ∧
    ps.length ≤ (flattenCatalog ps).length ∧
    flattenCatalog ps ≠ [] := by
  refine ⟨fun p _ => ⟨rfl, by simp [flattenProduct]⟩,
    flattenCatalog_length_ge ps, ?_⟩
  intro hnil
  have h2 := flattenCatalog_length_ge ps
  rw [hnil] at h2
  have h3 : ps.length = 0 := Nat.le_zero.mp h2
  exact hps (List.length_eq_zero.mp h3)

/-- Claim C10 witness: the theorem applied to the one-entry catalog whose
entry has no fields at all. -/
theorem C10_witness :
    1 ≤ (flattenCatalog [({} : Product)]).length ∧
    flattenCatalog [({} : Product)] ≠ [] := by
  have h := C10_flatten_lower_bound [({} : Product)] (by decide)
  exact ⟨h.2.1, h.2.2⟩
